import Mathlib

/-!
Verification development for the Reconciling Sync Engine
(`src/gateway/sync.ts`, function `syncToR2`).

The engine is embedded shallowly: every interaction with the sandbox
(mounting the store, running a shell command and awaiting it with a
timeout, reading the captured logs) is represented by its *outcome*,
supplied up front in a `World` record; `syncToR2` is then a pure function
of the environment bindings and that world, returning the `SyncResult` the
TypeScript function returns together with the ordered trace of external
steps it performed.  Quantifying theorems over all worlds quantifies over
all sandbox behaviours, command outcomes, thrown errors and timeouts.
-/

/-- Captured logs of a sandbox process, as returned by `getLogs()`:
`stdout`/`stderr` are `undefined` (here `none`) or a string. -/
structure Logs where
  stdout : Option String
  stderr : Option String
deriving Repr, DecidableEq

/-- A JavaScript thrown value, as discriminated by the source's
`err instanceof Error ? err.message : 'Unknown error'` pattern. -/
inductive Thrown where
  | jsError (msg : String)
  | other
deriving Repr, DecidableEq

/-- The diagnostic string the source extracts from a caught value. -/
def Thrown.detail : Thrown → String
  | .jsError msg => msg
  | .other => "Unknown error"

/-- Modelled from the spec: the bounded command runner (`startProcess` /
`waitForProcess` from `gateway/utils`, not under `src/`) either throws —
"exceeding timeout surfaces as an error on the await call" — or completes
and lets the caller read the captured logs.  One shell block therefore has
outcome: a thrown value, or the logs it produced. -/
abbrev CmdOutcome := Except Thrown Logs

/-- The three R2 credential bindings read from the worker environment.
Each is `undefined` (`none`) or a string (possibly empty, which is falsy
in JavaScript). -/
structure MoltbotEnv where
  R2_ACCESS_KEY_ID : Option String
  R2_SECRET_ACCESS_KEY : Option String
  CF_ACCOUNT_ID : Option String
deriving Repr, DecidableEq

/-- JavaScript truthiness of an optional string: `undefined` and `""` are
falsy. -/
def jsTruthy : Option String → Bool
  | none => false
  | some s => s != ""

/-- Does the first character list lead the second (character-by-character
match at the start)? -/
def leadsWith : List Char → List Char → Bool
  | [], _ => true
  | _ :: _, [] => false
  | a :: as, b :: bs => a == b && leadsWith as bs

/-- Does `sub` occur as a contiguous run inside `s`? -/
def hasSublist (sub : List Char) : List Char → Bool
  | [] => leadsWith sub []
  | c :: cs => leadsWith sub (c :: cs) || hasSublist sub cs

/-- JavaScript `String.prototype.includes`: `sub` occurs in `s`. -/
def jsIncludes (s sub : String) : Bool :=
  hasSublist sub.data s.data

/-- JavaScript `String.prototype.trim`: strip whitespace from both
ends. -/
def jsTrim (s : String) : String :=
  ⟨((s.data.dropWhile Char.isWhitespace).reverse.dropWhile Char.isWhitespace).reverse⟩

/-- The source's `!!logs.stdout?.includes(tok)`: `undefined` stdout gives
`false`. -/
def jsIncludesOpt (o : Option String) (tok : String) : Bool :=
  match o with
  | none => false
  | some s => jsIncludes s tok

/-- A fail-soft existence probe (lines 45-88 of sync.ts): a thrown error
anywhere in the block collapses to `false`; otherwise the captured stdout
is searched for the probe's token. -/
def probeBool (c : CmdOutcome) (tok : String) : Bool :=
  match c with
  | .error _ => false
  | .ok logs => jsIncludesOpt logs.stdout tok

/-- JavaScript `a || b` on optional strings (empty string is falsy). -/
def jsOr (a b : Option String) : Option String :=
  match a with
  | none => b
  | some s => if s == "" then b else some s

/-- JavaScript `a || d` with a string default. -/
def jsOrD (a : Option String) (d : String) : String :=
  match a with
  | none => d
  | some s => if s == "" then d else s

/-- The regex test `lastSync.match(/^\d{4}-\d{2}-\d{2}/)`: the string
starts with four digits, a dash, two digits, a dash, two digits. -/
def matchesDatePrefix (s : String) : Bool :=
  match s.toList with
  | a :: b :: c :: d :: h1 :: e :: f :: h2 :: g :: i :: _ =>
      a.isDigit && b.isDigit && c.isDigit && d.isDigit && h1 == '-' &&
      e.isDigit && f.isDigit && h2 == '-' && g.isDigit && i.isDigit
  | _ => false

/-- The source's guard `lastSync && lastSync.match(/^\d{4}-\d{2}-\d{2}/)`
where `lastSync = timestampLogs.stdout?.trim()`. -/
def lastSyncGood : Option String → Bool
  | none => false
  | some s => s != "" && matchesDatePrefix s

/-- The result record returned by `syncToR2` (interface `SyncResult`):
absent optional fields are `none`. -/
structure SyncResult where
  success : Bool
  lastSync : Option String := none
  error : Option String := none
  details : Option String := none
deriving Repr, DecidableEq

/-- `{ success: false, error: 'R2 storage is not configured' }` -/
def notConfiguredResult : SyncResult :=
  { success := false, error := some "R2 storage is not configured" }

/-- `{ success: false, error: 'Failed to mount R2 storage' }` -/
def mountFailedResult : SyncResult :=
  { success := false, error := some "Failed to mount R2 storage" }

/-- The `Restore failed` result, carrying the caught value's detail. -/
def restoreFailedResult (e : Thrown) : SyncResult :=
  { success := false, error := some "Restore failed", details := some e.detail }

/-- The integrity-guard abort result (check ran, file missing). -/
def abortMissingResult : SyncResult :=
  { success := false
    error := some "Sync aborted: source missing clawdbot.json"
    details := some "The local config directory is missing critical files. This could indicate corruption or an incomplete setup." }

/-- The integrity-guard probe-failure result (check itself threw). -/
def verifyFailedResult (e : Thrown) : SyncResult :=
  { success := false, error := some "Failed to verify source files", details := some e.detail }

/-- The `Sync failed` result (push ran but the re-read marker was absent
or malformed), with the diagnostic fallback chain already applied. -/
def syncFailedResult (d : String) : SyncResult :=
  { success := false, error := some "Sync failed", details := some d }

/-- The `Sync error` result (the push block threw). -/
def syncErrorResult (e : Thrown) : SyncResult :=
  { success := false, error := some "Sync error", details := some e.detail }

/-- The external steps `syncToR2` can perform, for the execution trace. -/
inductive Step where
  | mount
  | probeR2Sync
  | probeLocalSync
  | probeUser
  | probeSoul
  | probeMemory
  | restore
  | check
  | push
  | readTimestamp
  | readPushLogs
deriving Repr, DecidableEq

instance {ε α : Type} [DecidableEq ε] [DecidableEq α] : DecidableEq (Except ε α) := fun x y =>
  match x, y with
  | .error a, .error b => if h : a = b then isTrue (by rw [h]) else isFalse (by simp [h])
  | .error _, .ok _ => isFalse (by simp)
  | .ok _, .error _ => isFalse (by simp)
  | .ok a, .ok b => if h : a = b then isTrue (by rw [h]) else isFalse (by simp [h])

/-- One sandbox world: the outcome every interaction of `syncToR2` would
have, were it performed.  `mountOk` is the boolean contract of the
external mount collaborator `mountR2Storage` (spec: `mount(credentials)
-> bool`); the remaining fields are the outcomes of the shell blocks in
source order. -/
structure World where
  mountOk : Bool
  r2SyncCmd : CmdOutcome
  localSyncCmd : CmdOutcome
  userCmd : CmdOutcome
  soulCmd : CmdOutcome
  memoryCmd : CmdOutcome
  restoreCmd : Except Thrown Unit
  checkCmd : CmdOutcome
  pushCmd : Except Thrown Unit
  timestampCmd : CmdOutcome
  pushLogsCmd : CmdOutcome
deriving Repr, DecidableEq

/-- The five probe steps together with the preceding mount, in execution
order. -/
def probeSteps : List Step :=
  [Step.mount, Step.probeR2Sync, Step.probeLocalSync, Step.probeUser,
   Step.probeSoul, Step.probeMemory]

/-- Line 90 of sync.ts: restore runs iff the remote marker probe
succeeded and at least one of the four local probes failed. -/
def restoreCondition (w : World) : Bool :=
  probeBool w.r2SyncCmd "r2" &&
    (!probeBool w.localSyncCmd "local" || !probeBool w.userCmd "user" ||
     !probeBool w.soulCmd "soul" || !probeBool w.memoryCmd "memory")

/-- Lines 129-157 of sync.ts: start the push command and await it; read
the remote marker back; succeed iff the trimmed content is truthy and
date-prefixed, otherwise report `Sync failed` with the push command's
stderr, falling back to stdout, falling back to a fixed message; any
throw in the block yields `Sync error`. -/
def pushStep (w : World) : SyncResult × List Step :=
  match w.pushCmd with
  | .error e => (syncErrorResult e, [Step.push])
  | .ok _ =>
    match w.timestampCmd with
    | .error e => (syncErrorResult e, [Step.push, Step.readTimestamp])
    | .ok tlogs =>
      let lastSync := tlogs.stdout.map jsTrim
      if lastSyncGood lastSync then
        ({ success := true, lastSync := lastSync }, [Step.push, Step.readTimestamp])
      else
        match w.pushLogsCmd with
        | .error e =>
            (syncErrorResult e, [Step.push, Step.readTimestamp, Step.readPushLogs])
        | .ok logs =>
            (syncFailedResult (jsOrD (jsOr logs.stderr logs.stdout) "No timestamp file created"),
             [Step.push, Step.readTimestamp, Step.readPushLogs])

/-- Lines 104-123 of sync.ts: the integrity guard, then (if it passes)
the push.  A throw in the guard block yields `Failed to verify source
files`; a completed check whose stdout lacks `"ok"` yields the abort. -/
def guardAndPush (w : World) : SyncResult × List Step :=
  match w.checkCmd with
  | .error e => (verifyFailedResult e, [Step.check])
  | .ok logs =>
    if !jsIncludesOpt logs.stdout "ok" then
      (abortMissingResult, [Step.check])
    else
      ((pushStep w).1, Step.check :: (pushStep w).2)

/-- Lines 27-158 of sync.ts: the whole engine.  Returns the result
together with the ordered trace of external steps performed. -/
def syncToR2 (env : MoltbotEnv) (w : World) : SyncResult × List Step :=
  if !jsTruthy env.R2_ACCESS_KEY_ID || !jsTruthy env.R2_SECRET_ACCESS_KEY ||
      !jsTruthy env.CF_ACCOUNT_ID then
    (notConfiguredResult, [])
  else if !w.mountOk then
    (mountFailedResult, [Step.mount])
  else
    if restoreCondition w then
      match w.restoreCmd with
      | .error e => (restoreFailedResult e, probeSteps ++ [Step.restore])
      | .ok _ =>
          ((guardAndPush w).1, probeSteps ++ Step.restore :: (guardAndPush w).2)
    else
      ((guardAndPush w).1, probeSteps ++ (guardAndPush w).2)

/-! ### Concrete sample data, used to witness the theorems below -/

/-- An environment with all three credential fields present. -/
def envOk : MoltbotEnv :=
  { R2_ACCESS_KEY_ID := some "k", R2_SECRET_ACCESS_KEY := some "s", CF_ACCOUNT_ID := some "a" }

/-- An environment whose access-key binding is absent. -/
def envNoKey : MoltbotEnv :=
  { R2_ACCESS_KEY_ID := none, R2_SECRET_ACCESS_KEY := some "s", CF_ACCOUNT_ID := some "a" }

/-- Logs whose stdout is the given string and whose stderr is absent. -/
def okLogs (s : String) : Logs := { stdout := some s, stderr := none }

/-- Logs carrying a well-formed timestamp marker line. -/
def tsLogs : Logs := { stdout := some "2026-10-12T00:00:00+00:00\n", stderr := none }

/-- Logs with neither stream captured. -/
def emptyLogs : Logs := { stdout := none, stderr := none }

/-- A world in which every interaction succeeds: every file probe finds
its file, restore is not needed, the guard passes and the push lands a
well-formed marker. -/
def wAllOk : World :=
  { mountOk := true
    r2SyncCmd := Except.ok (okLogs "r2")
    localSyncCmd := Except.ok (okLogs "local")
    userCmd := Except.ok (okLogs "user")
    soulCmd := Except.ok (okLogs "soul")
    memoryCmd := Except.ok (okLogs "memory")
    restoreCmd := Except.ok ()
    checkCmd := Except.ok (okLogs "ok")
    pushCmd := Except.ok ()
    timestampCmd := Except.ok tsLogs
    pushLogsCmd := Except.ok emptyLogs }

/-- A world whose integrity-guard check runs and finds the file missing. -/
def wGuardMissing : World := { wAllOk with checkCmd := Except.ok (okLogs "") }

/-- A world whose integrity-guard check itself throws. -/
def wGuardThrew : World := { wAllOk with checkCmd := Except.error (Thrown.jsError "boom") }

/-- A world needing a restore (the USER.md probe fails) whose restore
command then throws. -/
def wRestoreFail : World :=
  { wAllOk with
    userCmd := Except.error Thrown.other,
    restoreCmd := Except.error (Thrown.jsError "rsync timed out") }

/-! ### Structural lemmas about the branches of the engine -/

theorem guardAndPush_cases (w : World) :
    (∃ e, w.checkCmd = Except.error e ∧ guardAndPush w = (verifyFailedResult e, [Step.check])) ∨
    (∃ logs, w.checkCmd = Except.ok logs ∧ jsIncludesOpt logs.stdout "ok" = false ∧
      guardAndPush w = (abortMissingResult, [Step.check])) ∨
    guardAndPush w = ((pushStep w).1, Step.check :: (pushStep w).2) := by
  cases h : w.checkCmd with
  | error e => exact Or.inl ⟨e, rfl, by simp [guardAndPush, h]⟩
  | ok logs =>
    cases hm : jsIncludesOpt logs.stdout "ok" with
    | true => exact Or.inr (Or.inr (by simp [guardAndPush, h, hm]))
    | false => exact Or.inr (Or.inl ⟨logs, rfl, hm, by simp [guardAndPush, h, hm]⟩)

theorem pushStep_cases (w : World) :
    (∃ e, (pushStep w).1 = syncErrorResult e) ∨
    (∃ d, pushStep w = (syncFailedResult d,
        [Step.push, Step.readTimestamp, Step.readPushLogs])) ∨
    (∃ s, pushStep w = ({ success := true, lastSync := some s },
        [Step.push, Step.readTimestamp])) := by
  unfold pushStep
  cases hp : w.pushCmd with
  | error e => exact Or.inl ⟨e, rfl⟩
  | ok u =>
    cases ht : w.timestampCmd with
    | error e => exact Or.inl ⟨e, rfl⟩
    | ok tlogs =>
      cases hg : lastSyncGood (tlogs.stdout.map jsTrim) with
      | true =>
        refine Or.inr (Or.inr ?_)
        cases hs : tlogs.stdout.map jsTrim with
        | none => rw [hs] at hg; exact absurd hg (by simp [lastSyncGood])
        | some s =>
          refine ⟨s, ?_⟩
          rw [hs] at hg
          simp [hs, hg]
      | false =>
        cases hl : w.pushLogsCmd with
        | error e => exact Or.inl ⟨e, by simp [hg, hl]⟩
        | ok logs =>
          exact Or.inr (Or.inl ⟨jsOrD (jsOr logs.stderr logs.stdout) "No timestamp file created",
            by simp [hg, hl]⟩)

theorem syncToR2_cases (env : MoltbotEnv) (w : World) :
    syncToR2 env w = (notConfiguredResult, []) ∨
    syncToR2 env w = (mountFailedResult, [Step.mount]) ∨
    (∃ e, w.restoreCmd = Except.error e ∧
      syncToR2 env w = (restoreFailedResult e, probeSteps ++ [Step.restore])) ∨
    (restoreCondition w = true ∧
      syncToR2 env w = ((guardAndPush w).1, probeSteps ++ Step.restore :: (guardAndPush w).2)) ∨
    (restoreCondition w = false ∧
      syncToR2 env w = ((guardAndPush w).1, probeSteps ++ (guardAndPush w).2)) := by
  unfold syncToR2
  by_cases h1 : (!jsTruthy env.R2_ACCESS_KEY_ID || !jsTruthy env.R2_SECRET_ACCESS_KEY ||
      !jsTruthy env.CF_ACCOUNT_ID) = true
  · simp [h1]
  · cases h2 : w.mountOk with
    | true =>
      cases h3 : restoreCondition w with
      | true =>
        cases hr : w.restoreCmd with
        | error e => exact Or.inr (Or.inr (Or.inl ⟨e, rfl, by simp [h1, h2, h3, hr]⟩))
        | ok u => exact Or.inr (Or.inr (Or.inr (Or.inl ⟨rfl, by simp [h1, h2, h3, hr]⟩)))
      | false =>
        exact Or.inr (Or.inr (Or.inr (Or.inr ⟨rfl, by simp [h1, h2, h3]⟩)))
    | false => simp [h1, h2]

theorem restoreCondition_iff (w : World) :
    restoreCondition w = true ↔
      (probeBool w.r2SyncCmd "r2" = true ∧
        (probeBool w.localSyncCmd "local" = false ∨ probeBool w.userCmd "user" = false ∨
         probeBool w.soulCmd "soul" = false ∨ probeBool w.memoryCmd "memory" = false)) := by
  simp only [restoreCondition, Bool.and_eq_true, Bool.or_eq_true, Bool.not_eq_true']
  tauto

theorem ne_empty_of_matchesDatePrefix (s : String) (h : matchesDatePrefix s = true) :
    (s != "") = true := by
  by_cases hs : s = ""
  · subst hs; exact absurd h (by decide)
  · simpa using hs

theorem lastSyncGood_some (s : String) : lastSyncGood (some s) = matchesDatePrefix s := by
  cases hm : matchesDatePrefix s with
  | true => simp [lastSyncGood, hm, ne_empty_of_matchesDatePrefix s hm]
  | false => simp [lastSyncGood, hm]

theorem pushStep_trace_cases (w : World) :
    (pushStep w).2 = [Step.push] ∨ (pushStep w).2 = [Step.push, Step.readTimestamp] ∨
    (pushStep w).2 = [Step.push, Step.readTimestamp, Step.readPushLogs] := by
  unfold pushStep
  cases hp : w.pushCmd with
  | error e => simp
  | ok u =>
    cases ht : w.timestampCmd with
    | error e => simp
    | ok tlogs =>
      cases hg : lastSyncGood (tlogs.stdout.map jsTrim) with
      | true => simp [hg]
      | false => cases hl : w.pushLogsCmd <;> simp [hg, hl]

theorem guardAndPush_check_mem (w : World) : Step.check ∈ (guardAndPush w).2 := by
  rcases guardAndPush_cases w with ⟨e, _, hg⟩ | ⟨logs, _, _, hg⟩ | hg <;> rw [hg] <;> simp

theorem guardAndPush_mem_subset (w : World) (s : Step) (h : s ∈ (guardAndPush w).2) :
    s = Step.check ∨ s = Step.push ∨ s = Step.readTimestamp ∨ s = Step.readPushLogs := by
  rcases guardAndPush_cases w with ⟨e, _, hg⟩ | ⟨logs, _, _, hg⟩ | hg <;> rw [hg] at h
  · simp at h; exact Or.inl h
  · simp at h; exact Or.inl h
  · rcases pushStep_trace_cases w with hp | hp | hp <;> rw [hp] at h <;> simp at h <;> tauto

theorem guardAndPush_push_reached (w : World) (h : Step.push ∈ (guardAndPush w).2) :
    (guardAndPush w).1 = (pushStep w).1 := by
  rcases guardAndPush_cases w with ⟨e, _, hg⟩ | ⟨logs, _, _, hg⟩ | hg
  · rw [hg] at h; simp at h
  · rw [hg] at h; simp at h
  · rw [hg]

theorem syncToR2_guard_reached (env : MoltbotEnv) (w : World)
    (h : Step.check ∈ (syncToR2 env w).2) :
    (syncToR2 env w).1 = (guardAndPush w).1 := by
  rcases syncToR2_cases env w with hc | hc | ⟨e, _, hc⟩ | ⟨_, hc⟩ | ⟨_, hc⟩
  · rw [hc] at h; simp at h
  · rw [hc] at h; simp at h
  · rw [hc] at h; simp [probeSteps] at h
  · rw [hc]
  · rw [hc]

theorem syncToR2_push_reached (env : MoltbotEnv) (w : World)
    (h : Step.push ∈ (syncToR2 env w).2) :
    (syncToR2 env w).1 = (pushStep w).1 := by
  rcases syncToR2_cases env w with hc | hc | ⟨e, _, hc⟩ | ⟨_, hc⟩ | ⟨_, hc⟩ <;> rw [hc] at h ⊢
  · simp at h
  · simp at h
  · simp [probeSteps] at h
  · simp [probeSteps] at h
    exact guardAndPush_push_reached w h
  · simp [probeSteps] at h
    exact guardAndPush_push_reached w h

theorem push_not_in_of_guard_halt (env : MoltbotEnv) (w : World)
    (h : (guardAndPush w).2 = [Step.check]) : Step.push ∉ (syncToR2 env w).2 := by
  rcases syncToR2_cases env w with hc | hc | ⟨e, _, hc⟩ | ⟨_, hc⟩ | ⟨_, hc⟩ <;> rw [hc] <;>
    simp [h, probeSteps]

theorem syncToR2_result_cases (env : MoltbotEnv) (w : World) :
    (syncToR2 env w).1 = notConfiguredResult ∨ (syncToR2 env w).1 = mountFailedResult ∨
    (∃ e, (syncToR2 env w).1 = restoreFailedResult e) ∨
    (∃ e, (syncToR2 env w).1 = verifyFailedResult e) ∨
    (syncToR2 env w).1 = abortMissingResult ∨
    (∃ e, (syncToR2 env w).1 = syncErrorResult e) ∨
    (∃ d, (syncToR2 env w).1 = syncFailedResult d) ∨
    (∃ s, (syncToR2 env w).1 = { success := true, lastSync := some s }) := by
  rcases syncToR2_cases env w with hc | hc | ⟨e, _, hc⟩ | ⟨_, hc⟩ | ⟨_, hc⟩
  · exact Or.inl (by rw [hc])
  · exact Or.inr (Or.inl (by rw [hc]))
  · exact Or.inr (Or.inr (Or.inl ⟨e, by rw [hc]⟩))
  all_goals (
    have h1 : (syncToR2 env w).1 = (guardAndPush w).1 := by rw [hc]
    rcases guardAndPush_cases w with ⟨e, _, hg⟩ | ⟨logs, _, _, hg⟩ | hg
    · exact Or.inr (Or.inr (Or.inr (Or.inl ⟨e, by rw [h1, hg]⟩)))
    · exact Or.inr (Or.inr (Or.inr (Or.inr (Or.inl (by rw [h1, hg])))))
    · have h2 : (syncToR2 env w).1 = (pushStep w).1 := by rw [h1, hg]
      rcases pushStep_cases w with ⟨e, hp⟩ | ⟨d, hp⟩ | ⟨s, hp⟩
      · exact Or.inr (Or.inr (Or.inr (Or.inr (Or.inr (Or.inl ⟨e, by rw [h2, hp]⟩)))))
      · exact Or.inr (Or.inr (Or.inr (Or.inr (Or.inr (Or.inr (Or.inl ⟨d, by rw [h2, hp]⟩))))))
      · exact Or.inr (Or.inr (Or.inr (Or.inr (Or.inr (Or.inr (Or.inr ⟨s, by rw [h2, hp]⟩)))))))

/-! ### Claim theorems -/

/-- C2: whenever at least one of the three required credential fields
(access key, secret key, account identifier) is absent (JavaScript-falsy),
`syncToR2` returns the `not configured` failure and performs no side
effects at all: the step trace is empty, so no mount attempt and zero
external commands are issued. -/
theorem syncToR2_credential_gate (env : MoltbotEnv) (w : World)
    (h : jsTruthy env.R2_ACCESS_KEY_ID = false ∨ jsTruthy env.R2_SECRET_ACCESS_KEY = false ∨
      jsTruthy env.CF_ACCOUNT_ID = false) :
    syncToR2 env w = (notConfiguredResult, []) := by
  rcases h with h | h | h <;> simp [syncToR2, h]

/-- Witness for C2: a concrete environment missing the access key, run
against a fully healthy world, yields the `not configured` result with an
empty trace. -/
theorem syncToR2_credential_gate_witness :
    syncToR2 envNoKey wAllOk = (notConfiguredResult, []) :=
  syncToR2_credential_gate envNoKey wAllOk (Or.inl rfl)

/-- C8: with all credentials present, if the mount collaborator returns
`false` then the result is exactly `{success := false, error := some
"Failed to mount R2 storage"}` with no other field set, and the only step
attempted is the mount itself — no probes, restore, guard or push. -/
theorem syncToR2_mount_failure (env : MoltbotEnv) (w : World)
    (hk : jsTruthy env.R2_ACCESS_KEY_ID = true) (hs : jsTruthy env.R2_SECRET_ACCESS_KEY = true)
    (ha : jsTruthy env.CF_ACCOUNT_ID = true) (hm : w.mountOk = false) :
    syncToR2 env w =
      ({ success := false, lastSync := none, error := some "Failed to mount R2 storage",
         details := none }, [Step.mount]) := by
  simp [syncToR2, hk, hs, ha, hm, mountFailedResult]

/-- Witness for C8: concrete credentials with a failing mount. -/
theorem syncToR2_mount_failure_witness :
    syncToR2 envOk { wAllOk with mountOk := false } =
      ({ success := false, lastSync := none, error := some "Failed to mount R2 storage",
         details := none }, [Step.mount]) :=
  syncToR2_mount_failure envOk { wAllOk with mountOk := false } rfl rfl rfl rfl

/-- C6: for every environment and every world — covering every sandbox
behaviour, credential set, command outcome, thrown error and timeout —
`syncToR2` is a total function into structured `SyncResult`s: it either
succeeds or carries an error classification; nothing escapes as an
exception (the embedding is total over worlds in which any interaction may
throw). -/
theorem syncToR2_total_structured (env : MoltbotEnv) (w : World) :
    (syncToR2 env w).1.success = true ∨ (syncToR2 env w).1.error.isSome = true := by
  rcases syncToR2_result_cases env w with hc | hc | ⟨e, hc⟩ | ⟨e, hc⟩ | hc | ⟨e, hc⟩ | ⟨d, hc⟩ |
    ⟨s, hc⟩ <;> rw [hc] <;>
    simp [notConfiguredResult, mountFailedResult, restoreFailedResult, verifyFailedResult,
      abortMissingResult, syncErrorResult, syncFailedResult]

/-- C10: shape invariant of every returned `SyncResult`: on success,
`lastSync` is set and `error`/`details` are absent; on failure, `error` is
set and `lastSync` is absent. -/
theorem syncToR2_result_shape (env : MoltbotEnv) (w : World) :
    ((syncToR2 env w).1.success = true →
      (syncToR2 env w).1.lastSync.isSome = true ∧ (syncToR2 env w).1.error = none ∧
      (syncToR2 env w).1.details = none) ∧
    ((syncToR2 env w).1.success = false →
      (syncToR2 env w).1.error.isSome = true ∧ (syncToR2 env w).1.lastSync = none) := by
  rcases syncToR2_result_cases env w with hc | hc | ⟨e, hc⟩ | ⟨e, hc⟩ | hc | ⟨e, hc⟩ | ⟨d, hc⟩ |
    ⟨s, hc⟩ <;> rw [hc] <;>
    simp [notConfiguredResult, mountFailedResult, restoreFailedResult, verifyFailedResult,
      abortMissingResult, syncErrorResult, syncFailedResult]

/-- C7: each of the five state probes is fail-soft: a probe whose command
throws (errors or times out) leaves `syncToR2` with exactly the same
result and the same step trace as the same world in which the probe ran
and found nothing (empty stdout, i.e. the file absent).  In particular a
probe failure never aborts the sync and never changes which later steps
are reachable. -/
theorem syncToR2_probes_fail_soft (env : MoltbotEnv) (w : World) (e : Thrown) :
    syncToR2 env { w with r2SyncCmd := Except.error e } =
      syncToR2 env { w with r2SyncCmd := Except.ok (okLogs "") } ∧
    syncToR2 env { w with localSyncCmd := Except.error e } =
      syncToR2 env { w with localSyncCmd := Except.ok (okLogs "") } ∧
    syncToR2 env { w with userCmd := Except.error e } =
      syncToR2 env { w with userCmd := Except.ok (okLogs "") } ∧
    syncToR2 env { w with soulCmd := Except.error e } =
      syncToR2 env { w with soulCmd := Except.ok (okLogs "") } ∧
    syncToR2 env { w with memoryCmd := Except.error e } =
      syncToR2 env { w with memoryCmd := Except.ok (okLogs "") } := by
  refine ⟨?_, ?_, ?_, ?_, ?_⟩ <;>
    simp [syncToR2, restoreCondition, guardAndPush, pushStep, probeBool, jsIncludesOpt, okLogs,
      jsIncludes, hasSublist, leadsWith]

/-- C1: in any run in which the integrity-guard check executes and finds
the primary config file missing (its command completed with stdout lacking
the `ok` token), `syncToR2` returns the missing-file abort classification
and the push step is never executed — independently of whether the restore
step ran beforehand. -/
theorem syncToR2_guard_missing_aborts (env : MoltbotEnv) (w : World) (logs : Logs)
    (hchk : w.checkCmd = Except.ok logs)
    (hmiss : jsIncludesOpt logs.stdout "ok" = false)
    (hreach : Step.check ∈ (syncToR2 env w).2) :
    (syncToR2 env w).1 = abortMissingResult ∧ Step.push ∉ (syncToR2 env w).2 := by
  have hg : guardAndPush w = (abortMissingResult, [Step.check]) := by
    simp [guardAndPush, hchk, hmiss]
  exact ⟨by rw [syncToR2_guard_reached env w hreach, hg],
    push_not_in_of_guard_halt env w (by rw [hg])⟩

/-- Witness for C1: a concrete healthy run whose guard check finds the
file missing aborts without pushing. -/
theorem syncToR2_guard_missing_aborts_witness :
    (syncToR2 envOk wGuardMissing).1 = abortMissingResult ∧
    Step.push ∉ (syncToR2 envOk wGuardMissing).2 :=
  syncToR2_guard_missing_aborts envOk wGuardMissing (okLogs "") rfl (by decide) (by decide)

/-- C9: in any run that reaches the integrity guard, the two guard failure
modes are distinguished: a check command that throws yields the `Failed to
verify source files` classification, a check that completes without
finding the file yields the missing-file abort, the two result records are
never equal, and in both cases push is not attempted. -/
theorem syncToR2_guard_failure_modes (env : MoltbotEnv) (w : World)
    (hreach : Step.check ∈ (syncToR2 env w).2) :
    (∀ e, w.checkCmd = Except.error e →
      (syncToR2 env w).1 = verifyFailedResult e ∧ Step.push ∉ (syncToR2 env w).2) ∧
    (∀ logs, w.checkCmd = Except.ok logs → jsIncludesOpt logs.stdout "ok" = false →
      (syncToR2 env w).1 = abortMissingResult ∧ Step.push ∉ (syncToR2 env w).2) ∧
    (∀ e, verifyFailedResult e ≠ abortMissingResult) := by
  refine ⟨fun e he => ?_, fun logs hl hmq => ?_, fun e h => ?_⟩
  · have hg : guardAndPush w = (verifyFailedResult e, [Step.check]) := by
      simp [guardAndPush, he]
    exact ⟨by rw [syncToR2_guard_reached env w hreach, hg],
      push_not_in_of_guard_halt env w (by rw [hg])⟩
  · have hg : guardAndPush w = (abortMissingResult, [Step.check]) := by
      simp [guardAndPush, hl, hmq]
    exact ⟨by rw [syncToR2_guard_reached env w hreach, hg],
      push_not_in_of_guard_halt env w (by rw [hg])⟩
  · have h2 := congrArg SyncResult.error h
    simp [verifyFailedResult, abortMissingResult] at h2

/-- Witness for C9: a concrete run whose guard check throws. -/
theorem syncToR2_guard_failure_modes_witness :
    (∀ e, wGuardThrew.checkCmd = Except.error e →
      (syncToR2 envOk wGuardThrew).1 = verifyFailedResult e ∧
      Step.push ∉ (syncToR2 envOk wGuardThrew).2) ∧
    (∀ logs, wGuardThrew.checkCmd = Except.ok logs →
      jsIncludesOpt logs.stdout "ok" = false →
      (syncToR2 envOk wGuardThrew).1 = abortMissingResult ∧
      Step.push ∉ (syncToR2 envOk wGuardThrew).2) ∧
    (∀ e, verifyFailedResult e ≠ abortMissingResult) :=
  syncToR2_guard_failure_modes envOk wGuardThrew (by decide)

/-- C3: with credentials present and the mount succeeded, the restore step
executes iff the remote-marker probe came back true and at least one of
the four local probes (local marker, USER.md, SOUL.md, MEMORY.md) came
back false; when that condition fails, restore is skipped and the trace
passes from the probes directly to the integrity guard (whose check step
is reached). -/
theorem syncToR2_restore_trigger (env : MoltbotEnv) (w : World)
    (hk : jsTruthy env.R2_ACCESS_KEY_ID = true) (hs : jsTruthy env.R2_SECRET_ACCESS_KEY = true)
    (ha : jsTruthy env.CF_ACCOUNT_ID = true) (hm : w.mountOk = true) :
    (Step.restore ∈ (syncToR2 env w).2 ↔
      (probeBool w.r2SyncCmd "r2" = true ∧
        (probeBool w.localSyncCmd "local" = false ∨ probeBool w.userCmd "user" = false ∨
         probeBool w.soulCmd "soul" = false ∨ probeBool w.memoryCmd "memory" = false))) ∧
    (restoreCondition w = false →
      (syncToR2 env w).2 = probeSteps ++ (guardAndPush w).2 ∧
      Step.check ∈ (syncToR2 env w).2) := by
  cases h3 : restoreCondition w with
  | true =>
    have htr : Step.restore ∈ (syncToR2 env w).2 := by
      cases hr : w.restoreCmd with
      | error e => simp [syncToR2, hk, hs, ha, hm, h3, hr, probeSteps]
      | ok u => simp [syncToR2, hk, hs, ha, hm, h3, hr, probeSteps]
    exact ⟨⟨fun _ => (restoreCondition_iff w).mp h3, fun _ => htr⟩,
      fun hf => absurd hf (by decide)⟩
  | false =>
    have htrace : (syncToR2 env w).2 = probeSteps ++ (guardAndPush w).2 := by
      simp [syncToR2, hk, hs, ha, hm, h3]
    refine ⟨⟨fun hmem => ?_, fun hrhs => ?_⟩, fun _ => ⟨htrace, ?_⟩⟩
    · rw [htrace] at hmem
      rcases List.mem_append.mp hmem with h | h
      · exact absurd h (by decide)
      · rcases guardAndPush_mem_subset w _ h with h | h | h | h <;> exact absurd h (by decide)
    · have h4 := (restoreCondition_iff w).mpr hrhs
      rw [h3] at h4
      exact absurd h4 (by decide)
    · rw [htrace]
      exact List.mem_append.mpr (Or.inr (guardAndPush_check_mem w))

/-- Witness for C3: the all-healthy concrete run (remote marker present,
all four local probes true): restore is skipped and control reaches the
guard. -/
theorem syncToR2_restore_trigger_witness :
    (Step.restore ∈ (syncToR2 envOk wAllOk).2 ↔
      (probeBool wAllOk.r2SyncCmd "r2" = true ∧
        (probeBool wAllOk.localSyncCmd "local" = false ∨
         probeBool wAllOk.userCmd "user" = false ∨
         probeBool wAllOk.soulCmd "soul" = false ∨
         probeBool wAllOk.memoryCmd "memory" = false))) ∧
    (restoreCondition wAllOk = false →
      (syncToR2 envOk wAllOk).2 = probeSteps ++ (guardAndPush wAllOk).2 ∧
      Step.check ∈ (syncToR2 envOk wAllOk).2) :=
  syncToR2_restore_trigger envOk wAllOk (by decide) (by decide) (by decide) (by decide)

/-- C5: whenever the restore step runs and fails (its command throws,
which includes exceeding the 30-second aggregate timeout), `syncToR2`
returns the `Restore failed` classification carrying the available
diagnostic text, and neither the integrity-guard check nor the push step
is ever attempted. -/
theorem syncToR2_restore_failure_aborts (env : MoltbotEnv) (w : World) (e : Thrown)
    (hk : jsTruthy env.R2_ACCESS_KEY_ID = true) (hs : jsTruthy env.R2_SECRET_ACCESS_KEY = true)
    (ha : jsTruthy env.CF_ACCOUNT_ID = true) (hm : w.mountOk = true)
    (hcond : restoreCondition w = true) (hre : w.restoreCmd = Except.error e) :
    (syncToR2 env w).1 = restoreFailedResult e ∧
    Step.check ∉ (syncToR2 env w).2 ∧ Step.push ∉ (syncToR2 env w).2 := by
  have h : syncToR2 env w = (restoreFailedResult e, probeSteps ++ [Step.restore]) := by
    simp [syncToR2, hk, hs, ha, hm, hcond, hre]
  have h2 : (syncToR2 env w).2 = probeSteps ++ [Step.restore] := by rw [h]
  refine ⟨by rw [h], ?_, ?_⟩ <;> rw [h2] <;> decide

/-- Witness for C5: a concrete run needing restore whose restore command
throws with a message. -/
theorem syncToR2_restore_failure_aborts_witness :
    (syncToR2 envOk wRestoreFail).1 = restoreFailedResult (Thrown.jsError "rsync timed out") ∧
    Step.check ∉ (syncToR2 envOk wRestoreFail).2 ∧
    Step.push ∉ (syncToR2 envOk wRestoreFail).2 :=
  syncToR2_restore_failure_aborts envOk wRestoreFail (Thrown.jsError "rsync timed out")
    (by decide) (by decide) (by decide) (by decide) (by decide) (by decide)

/-- C4: in any run that reaches the push step (push command awaited
without throwing, marker re-read without throwing, push logs readable),
success is decided solely by the re-read marker: the run succeeds iff the
trimmed marker content exists and matches the date prefix `\d{4}-\d{2}-\d{2}`,
in which case `lastSync` is that trimmed content; otherwise the result is
the `Sync failed` classification with details from the push command's
stderr, falling back to stdout, falling back to a fixed message. -/
theorem syncToR2_confirmation_decoupling (env : MoltbotEnv) (w : World) (tlogs plogs : Logs)
    (hpush : Step.push ∈ (syncToR2 env w).2)
    (hcmd : w.pushCmd = Except.ok ())
    (hts : w.timestampCmd = Except.ok tlogs)
    (hlogs : w.pushLogsCmd = Except.ok plogs) :
    ((syncToR2 env w).1.success = true ↔
      (∃ s, tlogs.stdout.map jsTrim = some s ∧ matchesDatePrefix s = true)) ∧
    ((syncToR2 env w).1.success = true →
      (syncToR2 env w).1.lastSync = tlogs.stdout.map jsTrim) ∧
    ((syncToR2 env w).1.success = false →
      (syncToR2 env w).1 =
        syncFailedResult (jsOrD (jsOr plogs.stderr plogs.stdout) "No timestamp file created")) := by
  have h1 : (syncToR2 env w).1 = (pushStep w).1 := syncToR2_push_reached env w hpush
  cases hg : lastSyncGood (tlogs.stdout.map jsTrim) with
  | true =>
    have hp : (pushStep w).1 = { success := true, lastSync := tlogs.stdout.map jsTrim } := by
      simp [pushStep, hcmd, hts, hg]
    rw [h1, hp]
    refine ⟨⟨fun _ => ?_, fun _ => rfl⟩, fun _ => rfl, fun hf => by simp at hf⟩
    cases hso : tlogs.stdout.map jsTrim with
    | none => rw [hso] at hg; exact absurd hg (by simp [lastSyncGood])
    | some s =>
      rw [hso, lastSyncGood_some] at hg
      exact ⟨s, rfl, hg⟩
  | false =>
    have hp : (pushStep w).1 =
        syncFailedResult (jsOrD (jsOr plogs.stderr plogs.stdout) "No timestamp file created") := by
      simp [pushStep, hcmd, hts, hg, hlogs]
    rw [h1, hp]
    refine ⟨⟨fun hf => by simp [syncFailedResult] at hf, ?_⟩,
      fun hf => by simp [syncFailedResult] at hf, fun _ => rfl⟩
    rintro ⟨s, hso, hmp⟩
    rw [hso, lastSyncGood_some] at hg
    exact absurd hmp (by simp [hg])

/-- Witness for C4: the all-healthy concrete run, whose re-read marker is
date-prefixed, succeeds with the trimmed marker content. -/
theorem syncToR2_confirmation_decoupling_witness :
    ((syncToR2 envOk wAllOk).1.success = true ↔
      (∃ s, tsLogs.stdout.map jsTrim = some s ∧ matchesDatePrefix s = true)) ∧
    ((syncToR2 envOk wAllOk).1.success = true →
      (syncToR2 envOk wAllOk).1.lastSync = tsLogs.stdout.map jsTrim) ∧
    ((syncToR2 envOk wAllOk).1.success = false →
      (syncToR2 envOk wAllOk).1 =
        syncFailedResult (jsOrD (jsOr emptyLogs.stderr emptyLogs.stdout)
          "No timestamp file created")) :=
  syncToR2_confirmation_decoupling envOk wAllOk tsLogs emptyLogs (by decide) rfl rfl rfl
